import Mathlib

/-!
# Garuda: request handlers over an in-memory store

A shallow embedding of `src/db/database.js` (the `Database` class) and
`src/routes/router.js` (the six request handlers and `validate`).

Conventions of the embedding.

* The three SQLite tables are lists of rows kept in rowid order; a statement
  without `ORDER BY` scans its table in that order.
* The `err` argument that the driver hands to each callback is an input of the
  operation (`Option SqliteError`); `if (err) return reject(err)` becomes the
  error case of the result.
* `Date.now()` is an input (`nowMs`, milliseconds).
* The column `delta INTEGER NOT NULL` applies SQLite's integer affinity to what
  is bound to it; `SUM(delta)` follows the engine: 64-bit integer addition that
  fails on overflow, floating-point addition once a value is not an integer;
  an integer result reaches JavaScript as the nearest double.
* Floating point is modelled only where it is exact: integers of magnitude up
  to `2 ^ 53`. A text that SQLite reads as a real literal is kept as
  `SqlVal.numeric` with its digits, and a sum whose outcome turns on such a
  value is `Outcome.unmodelled`.
* A reply goes out with an HTTP status only when `response.status` is given an
  integer from 100 to 999; see `Reply`.
* `express.json()` has populated `request.body` with an object, so that a field
  which is absent reads as `undefined`.
-/

namespace Garuda

/-! ## JavaScript values and errors -/

/-- JavaScript values that can occur in a request field, in a field of a thrown
error or in a reply. `num` holds the integer-valued numbers, `float` stands for
a number whose value is not modelled (it is not an integer, or it comes out of
floating-point rounding), `object` for every object and array. -/
inductive JsVal where
  | undefined
  | null
  | bool (b : Bool)
  | num (n : Int)
  | float
  | str (s : String)
  | object
  deriving DecidableEq, Repr

/-- The `typeof` operator. -/
def JsVal.typeof : JsVal → String
  | .undefined => "undefined"
  | .null => "object"
  | .bool _ => "boolean"
  | .num _ => "number"
  | .float => "number"
  | .str _ => "string"
  | .object => "object"

/-- The nullish coalescing operator `a ?? b`. -/
def JsVal.nullish (a b : JsVal) : JsVal :=
  match a with
  | .undefined => b
  | .null => b
  | _ => a

/-- A thrown object as the catch blocks read it: its `code` and `message`
properties, `undefined` when the object has none. -/
structure JsError where
  code : JsVal
  message : JsVal
  deriving DecidableEq, Repr

/-- Modelled from the spec: the class `ApiError` of `src/response/error.js`,
which is imported by the router but is not among the sources. The spec
describes error objects "carrying both a message and an optional status code"
and a reply of shape `{code, message}`; `validate` constructs one as
`new ApiError(400, message)`, so the constructor takes the code first and the
message second. An argument that the caller leaves out is `undefined`. -/
def ApiError.new (code : JsVal) (message : JsVal) : JsError :=
  { code := code, message := message }

/-- An error object of the SQLite driver: `errno` is the result code of the
engine, `code` its name (`'SQLITE_ERROR'`, `'SQLITE_IOERR'`, ...), a string, and
`message` the text. -/
structure SqliteError where
  errno : Nat
  code : String
  message : String
  deriving DecidableEq, Repr

/-- A driver error as a catch block reads it. -/
def SqliteError.toJsError (e : SqliteError) : JsError :=
  { code := .str e.code, message := .str e.message }

/-- The error with which a statement fails when `SUM` overflows the 64-bit
integers. -/
def integerOverflow : SqliteError :=
  { errno := 1, code := "SQLITE_ERROR", message := "SQLITE_ERROR: integer overflow" }

/-- How an awaited operation or a try block ends: with a value, with a thrown
error, or in a way that depends on floating-point conversion inside the engine
and is not modelled. -/
inductive Outcome (α : Type) where
  | ok (a : α)
  | error (e : JsError)
  | unmodelled
  deriving DecidableEq, Repr

/-- Sequencing of two steps: an error or an unmodelled end of the first step
ends the whole. -/
def Outcome.bind {α β : Type} (x : Outcome α) (f : α → Outcome β) : Outcome β :=
  match x with
  | .ok a => f a
  | .error e => .error e
  | .unmodelled => .unmodelled

instance : Monad Outcome where
  pure := Outcome.ok
  bind := Outcome.bind

/-- An operation that ends with a value or an error, as a step of a try
block. -/
def Outcome.ofExcept {α : Type} : Except JsError α → Outcome α
  | .ok a => .ok a
  | .error e => .error e

instance : MonadLift (Except JsError) Outcome where
  monadLift := Outcome.ofExcept

/-! ## `validate` and `parseInt` -/

/-- The function `validate(param, name)` of `router.js`. The value returned is
`param` itself, which is a string on that branch. -/
def validate (param : JsVal) (name : String) : Except JsError String :=
  match param with
  | .str s =>
    if s.length > 0 then
      .ok s
    else
      .error (ApiError.new (.num 400) (.str ("Parameter " ++ name ++ " is not valid")))
  | _ => .error (ApiError.new (.num 400) (.str ("Parameter " ++ name ++ " is not valid")))

/-- White space that `parseInt` skips at the start of its input
(ECMAScript `StrWhiteSpaceChar`: white space and line terminators). -/
def isStrWhiteSpaceChar (c : Char) : Bool :=
  c.toNat ∈ [0x09, 0x0A, 0x0B, 0x0C, 0x0D, 0x20, 0xA0, 0x1680, 0x2000, 0x2001,
    0x2002, 0x2003, 0x2004, 0x2005, 0x2006, 0x2007, 0x2008, 0x2009, 0x200A,
    0x2028, 0x2029, 0x202F, 0x205F, 0x3000, 0xFEFF]

/-- Value of a run of decimal digits, most significant first. -/
def digitsValue (ds : List Char) : Nat :=
  ds.foldl (fun acc c => 10 * acc + (c.toNat - 48)) 0

/-- The call `parseInt(s, 10)` on a string: leading white space is skipped, a
sign is read, then the longest run of decimal digits; what follows the digits
is ignored. `none` is `NaN` (no digit was found). The number returned by
JavaScript is the nearest double of the value given here. -/
def parseInt (s : String) : Option Int :=
  let trimmed := s.toList.dropWhile isStrWhiteSpaceChar
  let signed : Bool × List Char :=
    match trimmed with
    | '-' :: rest => (true, rest)
    | '+' :: rest => (false, rest)
    | _ => (false, trimmed)
  let digits := signed.2.takeWhile Char.isDigit
  if digits.isEmpty then
    none
  else if signed.1 then
    some (-(digitsValue digits : Int))
  else
    some (digitsValue digits : Int)

/-- A string is a decimal integer literal: an optional minus sign followed by
one or more decimal digits and nothing else. -/
def isIntegerLiteral (s : String) : Bool :=
  match s.toList with
  | '-' :: rest => !rest.isEmpty && rest.all Char.isDigit
  | cs => !cs.isEmpty && cs.all Char.isDigit

/-! ## SQL values, integer affinity and `SUM` -/

/-- A value bound to the `delta` placeholder or held in the `delta` column.
`integer i` is the integer `i` (a JavaScript integer number is bound as it is;
the engine keeps it with storage class INTEGER when it fits in 64 bits and as
the same number with storage class REAL otherwise). `text s` is a string.
`numeric s` is the number that the engine's floating-point conversion reads
from the literal `s`; its digits and its storage class (REAL, or INTEGER when
the converted number happens to be integral) are not modelled. -/
inductive SqlVal where
  | integer (i : Int)
  | numeric (literal : String)
  | text (s : String)
  deriving DecidableEq, Repr

/-- White space of the engine (`sqlite3Isspace`). -/
def isSqlSpace (c : Char) : Bool :=
  c.toNat ∈ [0x09, 0x0A, 0x0B, 0x0C, 0x0D, 0x20]

/-- A sign, when there is one, and what follows it. -/
def readSign : List Char → Bool × List Char
  | '-' :: rest => (true, rest)
  | '+' :: rest => (false, rest)
  | cs => (false, cs)

/-- The value of a sign and a run of digits. -/
def signedValue (negative : Bool) (digits : List Char) : Int :=
  if negative then -(digitsValue digits : Int) else (digitsValue digits : Int)

/-- How the engine reads a whole text as a number (`sqlite3AtoF`): as an
integer literal, as a real literal (a decimal point or an exponent is present),
or not at all. -/
inductive NumericShape where
  | integer (value : Int)
  | real
  | notNumeric
  deriving DecidableEq, Repr

/-- The shape of a text: optional white space, an optional sign, digits, an
optional point and digits, an optional exponent (`e` or `E`, an optional sign,
one or more digits), optional white space, and nothing else; at least one
digit must stand before the exponent. -/
def numericShape (s : String) : NumericShape :=
  let signed := readSign (s.toList.dropWhile isSqlSpace)
  let intDigits := signed.2.takeWhile Char.isDigit
  let afterInt := signed.2.dropWhile Char.isDigit
  let fraction : Bool × List Char × List Char :=
    match afterInt with
    | '.' :: rest => (true, rest.takeWhile Char.isDigit, rest.dropWhile Char.isDigit)
    | _ => (false, [], afterInt)
  let exponent : Bool × Bool × List Char :=
    match fraction.2.2 with
    | c :: rest =>
      if c = 'e' ∨ c = 'E' then
        (true, !((readSign rest).2.takeWhile Char.isDigit).isEmpty,
          (readSign rest).2.dropWhile Char.isDigit)
      else (false, true, c :: rest)
    | [] => (false, true, [])
  let tail := exponent.2.2.dropWhile isSqlSpace
  if !tail.isEmpty || (intDigits.isEmpty && fraction.2.1.isEmpty) || !exponent.2.1 then
    .notNumeric
  else if fraction.1 || exponent.1 then
    .real
  else
    .integer (signedValue signed.1 intDigits)

/-- The least 64-bit integer. -/
def int64Min : Int := -(2 ^ 63)

/-- The greatest 64-bit integer. -/
def int64Max : Int := 2 ^ 63 - 1

/-- An integer fits in 64 bits. -/
def inInt64 (i : Int) : Bool :=
  decide (int64Min ≤ i) && decide (i ≤ int64Max)

/-- The integer affinity of column `delta`: a text that is an integer literal
within 64 bits is stored as that integer; a text that is a real literal, or an
integer literal beyond 64 bits, is stored as the number read from it; any other
text stays text. -/
def integerAffinity : SqlVal → SqlVal
  | .integer i => .integer i
  | .numeric s => .numeric s
  | .text s =>
    match numericShape s with
    | .integer n => if inInt64 n then .integer n else .numeric s
    | .real => .numeric s
    | .notNumeric => .text s

/-- The number with which a text that is not a number enters a floating-point
sum: the integer at its start (0 when there is none), or `none` when a decimal
point or an exponent follows that integer, so that the number has a fraction
or a scale that is not modelled. -/
def leadingInteger (s : String) : Option Int :=
  let signed := readSign (s.toList.dropWhile isSqlSpace)
  let digits := signed.2.takeWhile Char.isDigit
  let continues : Bool :=
    match signed.2.dropWhile Char.isDigit with
    | '.' :: _ => true
    | c :: rest => (c = 'e' || c = 'E') && ((readSign rest).2.head?.any Char.isDigit)
    | [] => false
  if continues then none else some (signedValue signed.1 digits)

/-- How a value enters `SUM`: as a 64-bit integer, as a floating-point number
(`some n` when it is the integer `n`), or with a storage class that is not
modelled. -/
inductive Summand where
  | int (i : Int)
  | float (value : Option Int)
  | unknownClass
  deriving DecidableEq, Repr

/-- The summand of a value (`sqlite3_value_numeric_type`). -/
def summand (v : SqlVal) : Summand :=
  match integerAffinity v with
  | .integer i => if inInt64 i then .int i else .float (some i)
  | .numeric _ => .unknownClass
  | .text s => .float (leadingInteger s)

/-- An integer that every double represents exactly, as are its sums with
other such integers while they stay in the range. -/
def safeInteger (i : Int) : Bool :=
  decide (-(2 ^ 53) ≤ i) && decide (i ≤ 2 ^ 53)

/-- Floating-point addition where it is exact. -/
def addFloat (a b : Option Int) : Option Int :=
  match a, b with
  | some x, some y =>
    if safeInteger x && safeInteger y && safeInteger (x + y) then some (x + y) else none
  | _, _ => none

/-- The state of the aggregate `SUM` between two rows. `exact iSum safe`: every
value so far was a 64-bit integer, `iSum` is their sum, and `safe` tells that
the values and their running sums were all exact as doubles. `approx rSum`: a
value was not an integer, and the sum is the floating-point number `rSum`
(`none` when its value is not modelled). `overflow`: the integer sum left the
64-bit range. `unknown`: a value of unmodelled storage class was met while the
sum was an integer. -/
inductive SumState where
  | exact (iSum : Int) (safe : Bool)
  | approx (rSum : Option Int)
  | overflow
  | unknown
  deriving DecidableEq, Repr

/-- One row of the aggregate (`sumStep`). -/
def sumStep (st : SumState) (v : SqlVal) : SumState :=
  match st with
  | .unknown => .unknown
  | .overflow => .overflow
  | .exact iSum safe =>
    match summand v with
    | .int i =>
      if inInt64 (iSum + i) then
        .exact (iSum + i) (safe && safeInteger i && safeInteger (iSum + i))
      else .overflow
    | .float c => .approx (if safe then addFloat (some iSum) c else none)
    | .unknownClass => .unknown
  | .approx rSum =>
    match summand v with
    | .int i => .approx (addFloat rSum (some i))
    | .float c => .approx (addFloat rSum c)
    | .unknownClass => .approx none

/-- Value of the aggregate `SUM(delta)`: `NULL`, an integer, a floating-point
number (`some n` when it is the integer `n`), the error `integer overflow`, or
an outcome that is not modelled. -/
inductive SumResult where
  | null
  | integer (i : Int)
  | real (value : Option Int)
  | overflow
  | unknown
  deriving DecidableEq, Repr

/-- The aggregate `SUM` over the selected values, in rowid order
(`sumFinalize`): `NULL` when no row is selected. -/
def sqlSum (values : List SqlVal) : SumResult :=
  if values.isEmpty then .null
  else
    match values.foldl sumStep (.exact 0 true) with
    | .exact iSum _ => .integer iSum
    | .approx rSum => .real rSum
    | .overflow => .overflow
    | .unknown => .unknown

/-- The number of low bits that a double cannot hold of a natural number:
the least `e`, counted up from the given one, with `a < 2 ^ (53 + e)`. -/
def droppedBits (a : Nat) : Nat → Nat → Nat
  | 0, e => e
  | fuel + 1, e => if a < 2 ^ (53 + e) then e else droppedBits a fuel (e + 1)

/-- The double nearest to an integer (ties to even), as an integer: the
JavaScript number that the driver makes of a 64-bit integer. Integers of
magnitude up to `2 ^ 53` are kept. -/
def toDouble (n : Int) : Int :=
  let a := n.natAbs
  if a ≤ 2 ^ 53 then n
  else
    let e := droppedBits a a 0
    let q := a / 2 ^ e
    let r := a % 2 ^ e
    let q' := if 2 * r > 2 ^ e ∨ (2 * r = 2 ^ e ∧ q % 2 = 1) then q + 1 else q
    if n < 0 then -((q' * 2 ^ e : Nat) : Int) else ((q' * 2 ^ e : Nat) : Int)

/-! ## The store (`database.js`) -/

/-- A row of table `user` (`id TEXT PRIMARY KEY`). -/
structure UserRow where
  id : String
  firstName : String
  lastName : String
  deriving DecidableEq, Repr

/-- A row of table `token_history`. -/
structure TokenHistoryRow where
  id : Nat
  userId : String
  delta : SqlVal
  timestamp : Int
  reason : String
  deriving DecidableEq, Repr

/-- A row of table `promoted_listing`. -/
structure PromotedListingRow where
  listingId : String
  listingHash : String
  eventId : String
  eventTypeId : String
  deriving DecidableEq, Repr

/-- The content of the in-memory database: its three tables. -/
structure Database where
  user : List UserRow
  token_history : List TokenHistoryRow
  promoted_listing : List PromotedListingRow
  deriving DecidableEq, Repr

/-- The database after the three `CREATE TABLE IF NOT EXISTS` statements of the
constructor: every table is empty. -/
def Database.empty : Database :=
  { user := [], token_history := [], promoted_listing := [] }

/-- The statement `INSERT OR IGNORE INTO user (id, firstName, lastName)`: the
row is added unless a row with the same primary key is stored. -/
def Database.insertOrIgnoreUser (db : Database) (row : UserRow) : Database :=
  if db.user.any (fun u => u.id == row.id) then
    db
  else
    { db with user := db.user ++ [row] }

/-- The method `addUser(id, firstName, lastName)`. The resolved value
`{ id: this.lastID }` is read by no caller and is left out. -/
def Database.addUser (db : Database) (err : Option SqliteError)
    (id firstName lastName : String) : Except JsError Database :=
  match err with
  | some e => .error e.toJsError
  | none => .ok (db.insertOrIgnoreUser { id := id, firstName := firstName, lastName := lastName })

/-- The method `getUserTokenAmount(id)`:
`SELECT SUM(delta) AS amount FROM token_history WHERE userId = ?`, then
`row.amount ?? 0`. An integer sum reaches JavaScript as a double; a statement
that fails with `integer overflow` makes the driver report that error. -/
def Database.getUserTokenAmount (db : Database) (err : Option SqliteError)
    (id : String) : Outcome JsVal :=
  match err with
  | some e => .error e.toJsError
  | none =>
    match sqlSum ((db.token_history.filter (fun r => r.userId == id)).map (fun r => r.delta)) with
    | .null => .ok (JsVal.null.nullish (.num 0))
    | .integer i => .ok ((JsVal.num (toDouble i)).nullish (.num 0))
    | .real (some n) => .ok ((JsVal.num n).nullish (.num 0))
    | .real none => .ok (JsVal.float.nullish (.num 0))
    | .overflow => .error integerOverflow.toJsError
    | .unknown => .unmodelled

/-- An element of the result of `getUserTokenHistory`: the three selected
columns. -/
structure HistoryEntry where
  delta : SqlVal
  timestamp : Int
  reason : String
  deriving DecidableEq, Repr

/-- The method `getUserTokenHistory(id)`:
`SELECT delta, timestamp, reason FROM token_history WHERE userId = ?`. Each
delta is listed as the column holds it. The number that JavaScript receives for
an integer `i` is `toDouble i`, which is `i` itself for every integer that was
bound from a JavaScript number. -/
def Database.getUserTokenHistory (db : Database) (err : Option SqliteError)
    (id : String) : Except JsError (List HistoryEntry) :=
  match err with
  | some e => .error e.toJsError
  | none =>
    .ok ((db.token_history.filter (fun r => r.userId == id)).map
      (fun r => { delta := r.delta, timestamp := r.timestamp, reason := r.reason }))

/-- The method `addUserTokenDelta(id, delta, reason)`. The timestamp is
`Math.floor(Date.now() / 1000)`; the key of the new row is the next
`AUTOINCREMENT` value; the column keeps the bound delta under its integer
affinity. -/
def Database.addUserTokenDelta (db : Database) (err : Option SqliteError) (nowMs : Int)
    (id : String) (delta : SqlVal) (reason : String) : Except JsError Database :=
  let currentTimestamp := nowMs / 1000
  match err with
  | some e => .error e.toJsError
  | none =>
    .ok { db with
      token_history := db.token_history ++
        [{ id := db.token_history.length + 1, userId := id,
           delta := integerAffinity delta, timestamp := currentTimestamp,
           reason := reason }] }

/-- The method `getPromotedListings()`: `SELECT * FROM promoted_listing`. -/
def Database.getPromotedListings (db : Database) (err : Option SqliteError) :
    Except JsError (List PromotedListingRow) :=
  match err with
  | some e => .error e.toJsError
  | none => .ok db.promoted_listing

/-- The method `addPromotedListing(listingId, listingHash, eventId, eventTypeId)`:
a plain `INSERT INTO promoted_listing`. -/
def Database.addPromotedListing (db : Database) (err : Option SqliteError)
    (listingId listingHash eventId eventTypeId : String) : Except JsError Database :=
  match err with
  | some e => .error e.toJsError
  | none =>
    .ok { db with
      promoted_listing := db.promoted_listing ++
        [{ listingId := listingId, listingHash := listingHash, eventId := eventId,
           eventTypeId := eventTypeId }] }

/-! ## The request handlers (`router.js`) -/

/-- The parts of an Express request that the handlers read: `request.params`
and `request.body`, each a lookup that gives `undefined` for a field that is
absent. -/
structure Request where
  params : String → JsVal
  body : String → JsVal

/-- Modelled from the spec: the class `ApiSuccess` of `src/response/success.js`
is not among the sources; the spec gives the success reply as "a single string
message payload". The other cases are the values that the handlers send. -/
inductive Body where
  | apiSuccess (message : String)
  | error (code : JsVal) (message : JsVal)
  | amount (amount : JsVal)
  | history (rows : List HistoryEntry)
  | listings (rows : List PromotedListingRow)
  deriving DecidableEq, Repr

/-- What becomes of a call `response.status(code).send(body)`.
`sent status body`: `code` is an integer from 100 to 999 and the reply goes out
with that HTTP status and that body. `invalidStatus code body`: `code` is
anything else; Express 5 throws from `response.status`, and under Express 4
Node's `writeHead` throws unless `code` coerces to such an integer, so the call
does not end in a reply whose status is `code`, and what the client receives is
decided outside the handler. `unmodelled`: the handler ended in a way that is
not modelled. -/
inductive Reply where
  | sent (status : Int) (body : Body)
  | invalidStatus (code : JsVal) (body : Body)
  | unmodelled
  deriving DecidableEq, Repr

/-- The HTTP status with which the reply of the handler goes out; `none` when
`response.status` was not given a valid status. -/
def Reply.httpStatus : Reply → Option Int
  | .sent status _ => some status
  | .invalidStatus _ _ => none
  | .unmodelled => none

/-- The call `response.status(code).send(body)`. -/
def respond (code : JsVal) (body : Body) : Reply :=
  match code with
  | .num n => if 100 ≤ n ∧ n ≤ 999 then .sent n body else .invalidStatus code body
  | _ => .invalidStatus code body

/-- The catch block, which has the same text in each of the six handlers. -/
def catchBlock (error : JsError) : Reply :=
  let message := error.message.nullish (.str "Error")
  let code := error.code.nullish (.num 500)
  respond code (.error code message)

/-- The try block of `POST /user/add`. -/
def postUserAddTry (db : Database) (err : Option SqliteError) (request : Request) :
    Outcome (Database × Reply) := do
  let ticketSwapUserId ← validate (request.body "ticketSwapUserId") "ticketSwapUserId"
  let firstName ← validate (request.body "firstName") "firstName"
  let lastName ← validate (request.body "lastName") "lastName"
  let db' ← db.addUser err ticketSwapUserId firstName lastName
  pure (db', respond (.num 200) (.apiSuccess "Done"))

/-- The handler of `POST /user/add`. -/
def postUserAdd (db : Database) (err : Option SqliteError) (request : Request) :
    Database × Reply :=
  match postUserAddTry db err request with
  | .ok r => r
  | .error e => (db, catchBlock e)
  | .unmodelled => (db, .unmodelled)

/-- The try block of `POST /user/:ticketSwapUserId/tokens`. `isNaN(deltaAmount)`
is `deltaAmount.isNone`. The value handed to `addUserTokenDelta` is `delta`, the
validated string, not `deltaAmount`. -/
def postUserTokensTry (db : Database) (err : Option SqliteError) (nowMs : Int)
    (request : Request) : Outcome (Database × Reply) := do
  let ticketSwapUserId ← validate (request.params "ticketSwapUserId") "ticketSwapUserId"
  let reason ← validate (request.body "reason") "reason"
  let delta ← validate (request.body "delta") "delta"
  let deltaAmount := parseInt delta
  if deltaAmount.isNone then
    Outcome.error (ApiError.new (.str "Invalid delta amount") .undefined)
  else
    let db' ← db.addUserTokenDelta err nowMs ticketSwapUserId (.text delta) reason
    pure (db', respond (.num 200) (.apiSuccess "Done"))

/-- The handler of `POST /user/:ticketSwapUserId/tokens`. -/
def postUserTokens (db : Database) (err : Option SqliteError) (nowMs : Int)
    (request : Request) : Database × Reply :=
  match postUserTokensTry db err nowMs request with
  | .ok r => r
  | .error e => (db, catchBlock e)
  | .unmodelled => (db, .unmodelled)

/-- The try block of `GET /user/:ticketSwapUserId/tokens`. -/
def getUserTokensTry (db : Database) (err : Option SqliteError) (request : Request) :
    Outcome (Database × Reply) := do
  let ticketSwapUserId ← validate (request.params "ticketSwapUserId") "ticketSwapUserId"
  let amount ← db.getUserTokenAmount err ticketSwapUserId
  pure (db, respond (.num 200) (.amount amount))

/-- The handler of `GET /user/:ticketSwapUserId/tokens`. -/
def getUserTokens (db : Database) (err : Option SqliteError) (request : Request) :
    Database × Reply :=
  match getUserTokensTry db err request with
  | .ok r => r
  | .error e => (db, catchBlock e)
  | .unmodelled => (db, .unmodelled)

/-- The try block of `GET /user/:ticketSwapUserId/tokens/history`. -/
def getUserTokensHistoryTry (db : Database) (err : Option SqliteError)
    (request : Request) : Outcome (Database × Reply) := do
  let ticketSwapUserId ← validate (request.params "ticketSwapUserId") "ticketSwapUserId"
  let history ← db.getUserTokenHistory err ticketSwapUserId
  pure (db, respond (.num 200) (.history history))

/-- The handler of `GET /user/:ticketSwapUserId/tokens/history`. -/
def getUserTokensHistory (db : Database) (err : Option SqliteError) (request : Request) :
    Database × Reply :=
  match getUserTokensHistoryTry db err request with
  | .ok r => r
  | .error e => (db, catchBlock e)
  | .unmodelled => (db, .unmodelled)

/-- The try block of `GET /listings`. -/
def getListingsTry (db : Database) (err : Option SqliteError) :
    Outcome (Database × Reply) := do
  let listings ← db.getPromotedListings err
  pure (db, respond (.num 200) (.listings listings))

/-- The handler of `GET /listings`. -/
def getListings (db : Database) (err : Option SqliteError) : Database × Reply :=
  match getListingsTry db err with
  | .ok r => r
  | .error e => (db, catchBlock e)
  | .unmodelled => (db, .unmodelled)

/-- The try block of `POST /listings/add`. -/
def postListingsAddTry (db : Database) (err : Option SqliteError) (request : Request) :
    Outcome (Database × Reply) := do
  let id ← validate (request.body "listingId") "listingId"
  let hash ← validate (request.body "listingHash") "listingHash"
  let eventId ← validate (request.body "eventId") "eventId"
  let eventTypeId ← validate (request.body "eventTypeId") "eventTypeId"
  let db' ← db.addPromotedListing err id hash eventId eventTypeId
  pure (db', respond (.num 200) (.apiSuccess "Done"))

/-- The handler of `POST /listings/add`. -/
def postListingsAdd (db : Database) (err : Option SqliteError) (request : Request) :
    Database × Reply :=
  match postListingsAddTry db err request with
  | .ok r => r
  | .error e => (db, catchBlock e)
  | .unmodelled => (db, .unmodelled)

/-- The six routes that the router binds. -/
inductive Route where
  | postUserAdd
  | postUserTokens
  | getUserTokens
  | getUserTokensHistory
  | getListings
  | postListingsAdd
  deriving DecidableEq, Repr

/-- The try block of the handler bound to a route. -/
def Route.tryBlock (route : Route) (db : Database) (err : Option SqliteError) (nowMs : Int)
    (request : Request) : Outcome (Database × Reply) :=
  match route with
  | .postUserAdd => Garuda.postUserAddTry db err request
  | .postUserTokens => Garuda.postUserTokensTry db err nowMs request
  | .getUserTokens => Garuda.getUserTokensTry db err request
  | .getUserTokensHistory => Garuda.getUserTokensHistoryTry db err request
  | .getListings => Garuda.getListingsTry db err
  | .postListingsAdd => Garuda.postListingsAddTry db err request

/-- The router: the handler bound to a route. -/
def Route.handle (route : Route) (db : Database) (err : Option SqliteError) (nowMs : Int)
    (request : Request) : Database × Reply :=
  match route with
  | .postUserAdd => Garuda.postUserAdd db err request
  | .postUserTokens => Garuda.postUserTokens db err nowMs request
  | .getUserTokens => Garuda.getUserTokens db err request
  | .getUserTokensHistory => Garuda.getUserTokensHistory db err request
  | .getListings => Garuda.getListings db err
  | .postListingsAdd => Garuda.postListingsAdd db err request

/-! ## Sequences of calls and predicates used in the statements -/

/-- The arguments of one call `addUserTokenDelta(id, delta, reason)` with an
integer delta, and the clock reading during the call. -/
structure TokenDeltaCall where
  id : String
  delta : Int
  reason : String
  nowMs : Int
  deriving DecidableEq, Repr

/-- A sequence of `addUserTokenDelta` calls, each completing before the next
starts, with a driver that reports no fault. -/
def addUserTokenDeltas (db : Database) : List TokenDeltaCall → Except JsError Database
  | [] => .ok db
  | c :: cs =>
    match db.addUserTokenDelta none c.nowMs c.id (.integer c.delta) c.reason with
    | .ok db' => addUserTokenDeltas db' cs
    | .error e => .error e

/-- A sequence of `addPromotedListing` calls, each call given by its four
arguments, with a driver that reports no fault. -/
def addPromotedListings (db : Database) : List PromotedListingRow → Except JsError Database
  | [] => .ok db
  | c :: cs =>
    match db.addPromotedListing none c.listingId c.listingHash c.eventId c.eventTypeId with
    | .ok db' => addPromotedListings db' cs
    | .error e => .error e

/-- The constraint `id TEXT PRIMARY KEY` of table `user`: no two rows share an
id. -/
def Database.userKeysUnique (db : Database) : Prop :=
  (db.user.map (fun u => u.id)).Nodup

/-- A field value passes the check of `validate`: it is a string of length
greater than 0. -/
def isNonEmptyString (v : JsVal) : Bool :=
  match v with
  | .str s => decide (0 < s.length)
  | _ => false

/-- Where a handler reads a required field from. -/
inductive FieldSource where
  | params
  | body
  deriving DecidableEq, Repr

/-- A required field of a handler: where it is read and its name. -/
structure Field where
  source : FieldSource
  name : String
  deriving DecidableEq, Repr

/-- The value of a field in a request. -/
def Field.value (f : Field) (request : Request) : JsVal :=
  match f.source with
  | .params => request.params f.name
  | .body => request.body f.name

/-- The required fields of each write handler, in the order of its `validate`
calls. The read handlers are listed with the one field they validate. -/
def Route.requiredFields : Route → List Field
  | .postUserAdd =>
    [⟨.body, "ticketSwapUserId"⟩, ⟨.body, "firstName"⟩, ⟨.body, "lastName"⟩]
  | .postUserTokens =>
    [⟨.params, "ticketSwapUserId"⟩, ⟨.body, "reason"⟩, ⟨.body, "delta"⟩]
  | .getUserTokens => [⟨.params, "ticketSwapUserId"⟩]
  | .getUserTokensHistory => [⟨.params, "ticketSwapUserId"⟩]
  | .getListings => []
  | .postListingsAdd =>
    [⟨.body, "listingId"⟩, ⟨.body, "listingHash"⟩, ⟨.body, "eventId"⟩,
     ⟨.body, "eventTypeId"⟩]

/-- A request built from two association lists, for concrete examples. -/
def Request.ofLists (params body : List (String × JsVal)) : Request :=
  { params := fun k => ((params.lookup k).getD .undefined),
    body := fun k => ((body.lookup k).getD .undefined) }

/-- The string held by a string value (the empty string for any other
value). -/
def JsVal.asString : JsVal → String
  | .str s => s
  | _ => ""

/-! ## Concrete requests -/

/-- The request `POST /user/add` with an empty `firstName`. -/
def requestEmptyFirstName : Request :=
  Request.ofLists []
    [("ticketSwapUserId", .str "u1"), ("firstName", .str ""), ("lastName", .str "B")]

/-- The request `POST /user/u1/tokens` with `delta = "abc"`. -/
def requestDeltaAbc : Request :=
  Request.ofLists [("ticketSwapUserId", .str "u1")]
    [("delta", .str "abc"), ("reason", .str "bonus")]

/-- The request `POST /user/u1/tokens` with `delta = "10abc"`. -/
def requestDelta10abc : Request :=
  Request.ofLists [("ticketSwapUserId", .str "u1")]
    [("delta", .str "10abc"), ("reason", .str "bonus")]

/-- The request `POST /user/u1/tokens` with `delta = "3.7"`. -/
def requestDelta3point7 : Request :=
  Request.ofLists [("ticketSwapUserId", .str "u1")]
    [("delta", .str "3.7"), ("reason", .str "bonus")]

/-- The request `POST /user/u1/tokens` with an empty `reason` and
`delta = "abc"`. -/
def requestEmptyReason : Request :=
  Request.ofLists [("ticketSwapUserId", .str "u1")]
    [("delta", .str "abc"), ("reason", .str "")]

/-- The request `POST /listings/add` for one listing. -/
def requestListing : Request :=
  Request.ofLists []
    [("listingId", .str "l1"), ("listingHash", .str "h1"), ("eventId", .str "e1"),
     ("eventTypeId", .str "t1")]

/-- The request `GET /user/u1/tokens`. -/
def requestUser1 : Request :=
  Request.ofLists [("ticketSwapUserId", .str "u1")] []

/-- An error of the driver: a disk fault, with the string code that the driver
gives it. -/
def driverFault : SqliteError :=
  { errno := 10, code := "SQLITE_IOERR", message := "SQLITE_IOERR: disk I/O error" }

/-- A thrown object without a `code`, such as a `TypeError`. -/
def plainError : JsError :=
  { code := .undefined, message := .str "Cannot read properties of undefined" }

/-- Three `addUserTokenDelta` calls: 10 and then -3 for user `u1`, with a call
for user `u2` between them. -/
def tokenCalls : List TokenDeltaCall :=
  [{ id := "u1", delta := 10, reason := "bonus", nowMs := 1700000000999 },
   { id := "u2", delta := 100, reason := "gift", nowMs := 1700000001500 },
   { id := "u1", delta := -3, reason := "fee", nowMs := 1700000002000 }]

/-- Two `addPromotedListing` calls with distinct listing ids. -/
def listingCalls : List PromotedListingRow :=
  [{ listingId := "l1", listingHash := "h1", eventId := "e1", eventTypeId := "t1" },
   { listingId := "l2", listingHash := "h2", eventId := "e1", eventTypeId := "t1" }]

/-- The deltas of the calls made for a user id, in call order. -/
def deltasFor (calls : List TokenDeltaCall) (id : String) : List Int :=
  (calls.filter (fun c => c.id = id)).map (fun c => c.delta)

/-- The running sums of a list of integers, from a starting value. -/
def runningSums : List Int → Int → List Int
  | [], _ => []
  | d :: ds, s => (s + d) :: runningSums ds (s + d)

/-- The sum of a list of deltas is an integer sum in the engine: every delta
lies strictly between `-2 ^ 63` and `2 ^ 63`, and every running sum fits in 64
bits. -/
def sumFitsInt64 (ds : List Int) : Bool :=
  ds.all (fun d => decide (-(2 ^ 63) < d) && decide (d < 2 ^ 63)) &&
    (runningSums ds 0).all inInt64

/-- The sum of a list of deltas is exact in the engine and in JavaScript: it is
an integer sum in the engine and the total has magnitude at most `2 ^ 53`. -/
def sumIsExact (ds : List Int) : Bool :=
  sumFitsInt64 ds && safeInteger ds.sum

/-- Two calls for user `u1` whose deltas, `2 ^ 53` and 1, are JavaScript
integers and whose sum is not. -/
def roundedCalls : List TokenDeltaCall :=
  [{ id := "u1", delta := 9007199254740992, reason := "bonus", nowMs := 1700000000999 },
   { id := "u1", delta := 1, reason := "bonus", nowMs := 1700000001500 }]

/-- Two calls for user `u1` with delta `2 ^ 62` each. -/
def overflowCalls : List TokenDeltaCall :=
  [{ id := "u1", delta := 4611686018427387904, reason := "bonus", nowMs := 1700000000999 },
   { id := "u1", delta := 4611686018427387904, reason := "bonus", nowMs := 1700000001500 }]

/-- The request `POST /user/add` for user `u1`. -/
def requestAddUser : Request :=
  Request.ofLists []
    [("ticketSwapUserId", .str "u1"), ("firstName", .str "A"), ("lastName", .str "B")]

/-- The request `POST /user/u1/tokens` with `delta = "10"`. -/
def requestDelta10 : Request :=
  Request.ofLists [("ticketSwapUserId", .str "u1")]
    [("delta", .str "10"), ("reason", .str "bonus")]

/-- The request `POST /user/u1/tokens` with `delta = "-3"`. -/
def requestDeltaMinus3 : Request :=
  Request.ofLists [("ticketSwapUserId", .str "u1")]
    [("delta", .str "-3"), ("reason", .str "fee")]

/-- The store after the scenario of the spec: user `u1` is added, then 10 and
-3 are posted as deltas for it. -/
def scenarioStore : Database :=
  (postUserTokens
    (postUserTokens (postUserAdd Database.empty none requestAddUser).1 none 1700000000999
      requestDelta10).1
    none 1700000002000 requestDeltaMinus3).1

/-- A store that holds one user. -/
def storeWithUser : Database :=
  { user := [{ id := "u0", firstName := "Z", lastName := "Y" }],
    token_history := [], promoted_listing := [] }

/-! ## Basic facts -/

theorem typeof_eq_string_iff (v : JsVal) : v.typeof = "string" ↔ ∃ s, v = .str s := by
  cases v <;> simp [JsVal.typeof]

theorem isNonEmptyString_iff (v : JsVal) :
    isNonEmptyString v = true ↔ ∃ s, v = .str s ∧ 0 < s.length := by
  cases v <;> simp [isNonEmptyString]

theorem validate_ok_of_nonEmpty (s : String) (name : String) (h : 0 < s.length) :
    validate (.str s) name = .ok s := by
  simp [validate, h]

theorem validate_error_of_not_nonEmpty (v : JsVal) (name : String)
    (h : isNonEmptyString v = false) :
    validate v name =
      .error { code := .num 400, message := .str ("Parameter " ++ name ++ " is not valid") } := by
  cases v <;> simp_all [isNonEmptyString, validate, ApiError.new]

theorem validate_eq (v : JsVal) (name : String) :
    validate v name =
      if isNonEmptyString v = true then .ok v.asString
      else .error { code := .num 400,
                    message := .str ("Parameter " ++ name ++ " is not valid") } := by
  cases v <;> simp [isNonEmptyString, validate, ApiError.new, JsVal.asString]

theorem nullish_eq (a b : JsVal) :
    a.nullish b = if a = .undefined ∨ a = .null then b else a := by
  cases a <;> simp [JsVal.nullish]

/-- The catch block on an error whose code is an integer from 100 to 999. -/
theorem catchBlock_of_status (e : JsError) (n : Int) (hcode : e.code = .num n)
    (hlo : 100 ≤ n) (hhi : n ≤ 999) :
    catchBlock e = .sent n (.error (.num n) (e.message.nullish (.str "Error"))) := by
  simp [catchBlock, respond, hcode, JsVal.nullish, hlo, hhi]

/-- The catch block on an error without a code. -/
theorem catchBlock_of_no_code (e : JsError) (hcode : e.code = .undefined ∨ e.code = .null) :
    catchBlock e = .sent 500 (.error (.num 500) (e.message.nullish (.str "Error"))) := by
  rcases hcode with h | h <;> simp [catchBlock, respond, h, JsVal.nullish]

/-- The catch block on an error whose code is a string. -/
theorem catchBlock_of_string_code (e : JsError) (s : String) (hcode : e.code = .str s) :
    catchBlock e = .invalidStatus (.str s) (.error (.str s) (e.message.nullish (.str "Error"))) := by
  simp [catchBlock, respond, hcode, JsVal.nullish]

/-! ## `validate` (C3) -/

/-- C3: `validate(param, name)` returns `param` when it is a string of length
greater than 0; for every other value (not a string, which includes an absent
field, or the empty string) it throws an error whose code is 400 and whose
message is `Parameter <name> is not valid`; the two cases cover every value.
`POST /user/add` with a valid user id and `firstName = ""` replies with HTTP
status 400 and the message `Parameter firstName is not valid`, and leaves the
store as it was. -/
theorem validate_spec (param : JsVal) (name : String) :
    (∀ s, param = .str s → 0 < s.length → validate param name = .ok s) ∧
    ((param.typeof ≠ "string" ∨ param = .str "") →
      validate param name =
        .error { code := .num 400,
                 message := .str ("Parameter " ++ name ++ " is not valid") }) ∧
    ((∃ s, param = .str s ∧ 0 < s.length) ∨ (param.typeof ≠ "string" ∨ param = .str "")) ∧
    (∀ (db : Database) (err : Option SqliteError) (request : Request),
      isNonEmptyString (request.body "ticketSwapUserId") = true →
      request.body "firstName" = .str "" →
      postUserAdd db err request =
        (db, .sent 400 (.error (.num 400) (.str "Parameter firstName is not valid")))) := by
  refine ⟨?_, ?_, ?_, ?_⟩
  · rintro s rfl hs
    exact validate_ok_of_nonEmpty s name hs
  · intro h
    apply validate_error_of_not_nonEmpty
    rcases h with h | h
    · cases param <;> simp_all [isNonEmptyString, JsVal.typeof]
    · subst h
      rfl
  · cases param with
    | str s =>
      by_cases hs : s = ""
      · exact Or.inr (Or.inr (by rw [hs]))
      · refine Or.inl ⟨s, rfl, ?_⟩
        have : s.length ≠ 0 := by
          intro h0
          apply hs
          cases s with
          | mk data => cases data <;> simp_all [String.length]
        omega
    | _ => exact Or.inr (Or.inl (by simp [JsVal.typeof]))
  · intro db err request hid hfirst
    have hf : isNonEmptyString (request.body "firstName") = false := by
      rw [hfirst]; rfl
    simp [postUserAdd, postUserAddTry, validate_eq, hid, hf, bind, Outcome.bind, liftM,
      monadLift, MonadLift.monadLift, Outcome.ofExcept, catchBlock, respond, JsVal.nullish]

/-- C3, at concrete inputs: a non-empty string is returned, the empty string
and an absent field are refused with code 400, and the request with an empty
`firstName` is answered 400. -/
theorem validate_spec_witness :
    validate (.str "A") "firstName" = .ok "A" ∧
    validate (.str "") "firstName" =
      .error { code := .num 400, message := .str "Parameter firstName is not valid" } ∧
    validate .undefined "firstName" =
      .error { code := .num 400, message := .str "Parameter firstName is not valid" } ∧
    postUserAdd Database.empty none requestEmptyFirstName =
      (Database.empty,
        .sent 400 (.error (.num 400) (.str "Parameter firstName is not valid"))) :=
  ⟨(validate_spec (.str "A") "firstName").1 "A" rfl (by decide),
   (validate_spec (.str "") "firstName").2.1 (Or.inr rfl),
   (validate_spec .undefined "firstName").2.1 (Or.inl (by decide)),
   (validate_spec .undefined "x").2.2.2 Database.empty none requestEmptyFirstName
     (by decide) (by decide)⟩

/-! ## The reply to a delta that does not parse (C4) and the stored delta (C5) -/

/-- When the three fields of `POST /user/:ticketSwapUserId/tokens` pass
`validate` and `parseInt` gives `NaN`, the try block throws
`new ApiError('Invalid delta amount')`. -/
theorem postUserTokensTry_of_parseInt_none (db : Database) (err : Option SqliteError)
    (nowMs : Int) (request : Request) (delta : String)
    (hid : isNonEmptyString (request.params "ticketSwapUserId") = true)
    (hreason : isNonEmptyString (request.body "reason") = true)
    (hdelta : request.body "delta" = .str delta) (hlen : 0 < delta.length)
    (hparse : parseInt delta = none) :
    postUserTokensTry db err nowMs request =
      .error (ApiError.new (.str "Invalid delta amount") .undefined) := by
  have hd : isNonEmptyString (.str delta) = true := by
    simpa [isNonEmptyString] using hlen
  simp [postUserTokensTry, validate_eq, hid, hreason, hd, hdelta, JsVal.asString, hparse, bind,
    Outcome.bind, liftM, monadLift, MonadLift.monadLift, Outcome.ofExcept]

/-- For every request whose three fields pass `validate` and whose `delta` gives
`NaN` under `parseInt`, `response.status` is called with the string
`'Invalid delta amount'`, which is no HTTP status, and the message on its way
is `"Error"`. -/
theorem postUserTokens_of_parseInt_none (db : Database) (err : Option SqliteError)
    (nowMs : Int) (request : Request) (delta : String)
    (hid : isNonEmptyString (request.params "ticketSwapUserId") = true)
    (hreason : isNonEmptyString (request.body "reason") = true)
    (hdelta : request.body "delta" = .str delta) (hlen : 0 < delta.length)
    (hparse : parseInt delta = none) :
    postUserTokens db err nowMs request =
      (db,
        .invalidStatus (.str "Invalid delta amount")
          (.error (.str "Invalid delta amount") (.str "Error"))) := by
  simp [postUserTokens,
    postUserTokensTry_of_parseInt_none db err nowMs request delta hid hreason hdelta hlen hparse,
    catchBlock, respond, ApiError.new, JsVal.nullish]

/-- C4, the code at `delta = "abc"`: `parseInt` gives `NaN`, the handler throws
`new ApiError('Invalid delta amount')`, whose first argument is the code, and
the catch block calls `response.status('Invalid delta amount')` with the body
`{code: 'Invalid delta amount', message: "Error"}`. No reply with status 400
goes out, and the message on its way is not `"Invalid delta amount"`. -/
theorem postUserTokens_delta_abc_reply :
    parseInt "abc" = none ∧
    postUserTokens Database.empty none 0 requestDeltaAbc =
      (Database.empty,
        .invalidStatus (.str "Invalid delta amount")
          (.error (.str "Invalid delta amount") (.str "Error"))) ∧
    (postUserTokens Database.empty none 0 requestDeltaAbc).2.httpStatus ≠ some 400 ∧
    (postUserTokens Database.empty none 0 requestDeltaAbc).2 ≠
      .sent 400 (.error (.num 400) (.str "Invalid delta amount")) := by
  refine ⟨by decide, by decide, by decide, by decide⟩

/-- C5, the code at `delta = "10abc"` and at `delta = "3.7"`: neither string is
an integer literal, `parseInt` reads the leading digits (10 and 3), so the
handler accepts the request and answers 200, and the value it hands to
`addUserTokenDelta` is the string itself: the row of `"10abc"` holds that text,
and the row of `"3.7"` holds the number that the column affinity reads from
it. -/
theorem postUserTokens_stores_raw_delta :
    isIntegerLiteral "10abc" = false ∧ parseInt "10abc" = some 10 ∧
    postUserTokens Database.empty none 1700000000999 requestDelta10abc =
      ({ user := [],
         token_history :=
           [{ id := 1, userId := "u1", delta := .text "10abc", timestamp := 1700000000,
              reason := "bonus" }],
         promoted_listing := [] },
        .sent 200 (.apiSuccess "Done")) ∧
    Database.addUserTokenDelta Database.empty none 1700000000999 "u1" (.text "10abc") "bonus" =
      .ok (postUserTokens Database.empty none 1700000000999 requestDelta10abc).1 ∧
    isIntegerLiteral "3.7" = false ∧ parseInt "3.7" = some 3 ∧
    postUserTokens Database.empty none 1700000000999 requestDelta3point7 =
      ({ user := [],
         token_history :=
           [{ id := 1, userId := "u1", delta := .numeric "3.7", timestamp := 1700000000,
              reason := "bonus" }],
         promoted_listing := [] },
        .sent 200 (.apiSuccess "Done")) ∧
    Database.addUserTokenDelta Database.empty none 1700000000999 "u1" (.text "3.7") "bonus" =
      .ok (postUserTokens Database.empty none 1700000000999 requestDelta3point7).1 := by
  refine ⟨by decide, by decide, by decide, rfl, by decide, by decide, by decide, rfl⟩

/-! ## The reply of every handler (C7) -/

/-- C7, the claim as stated fails at a fault of the driver: on `GET /listings`
the data-access call rejects with an error whose code is the string
`'SQLITE_IOERR'`; the catch block calls `response.status('SQLITE_IOERR')`, which
is no HTTP status, so the handler sends no reply whose status is the code of
the error, and its body `{code, message}` does not go out. -/
theorem handle_reply_counterexample :
    Route.getListings.tryBlock Database.empty (some driverFault) 0 requestUser1 =
      .error driverFault.toJsError ∧
    driverFault.toJsError.code = .str "SQLITE_IOERR" ∧
    Route.getListings.handle Database.empty (some driverFault) 0 requestUser1 =
      (Database.empty,
        .invalidStatus (.str "SQLITE_IOERR")
          (.error (.str "SQLITE_IOERR") (.str "SQLITE_IOERR: disk I/O error"))) ∧
    (Route.getListings.handle Database.empty (some driverFault) 0 requestUser1).2.httpStatus =
      none := by
  refine ⟨rfl, rfl, by decide, by decide⟩

/-- C7, amended: for each of the six handlers, an error `e` thrown by the try
block (from `validate`, from the delta check or from the data-access call) is
handled by the catch block, with the store left as it was. When the code of `e`
is an integer from 100 to 999, the reply goes out with that HTTP status; when
`e` has no code (`undefined` or `null`), it goes out with status 500; in both
cases the body is `{code, message}` with the status as code and with the
message of `e`, or `"Error"` when `e` has none. When nothing is thrown the
status is 200. A fault reported by the driver is never answered 200. -/
theorem handle_reply (route : Route) (db : Database) (err : Option SqliteError)
    (nowMs : Int) (request : Request) :
    (∀ e, route.tryBlock db err nowMs request = .error e →
      route.handle db err nowMs request = (db, catchBlock e)) ∧
    (∀ (e : JsError) (n : Int), e.code = .num n → 100 ≤ n → n ≤ 999 →
      catchBlock e =
        .sent n (.error (.num n)
          (if e.message = .undefined ∨ e.message = .null then .str "Error" else e.message))) ∧
    (∀ e : JsError, (e.code = .undefined ∨ e.code = .null) →
      catchBlock e =
        .sent 500 (.error (.num 500)
          (if e.message = .undefined ∨ e.message = .null then .str "Error" else e.message))) ∧
    (∀ r, route.tryBlock db err nowMs request = .ok r →
      route.handle db err nowMs request = r ∧ ∃ body, r.2 = .sent 200 body) ∧
    (∀ fault, err = some fault → ∃ e, route.tryBlock db err nowMs request = .error e) := by
  refine ⟨?_, ?_, ?_, ?_, ?_⟩
  · intro e he
    cases route <;>
      simp only [Route.tryBlock] at he <;>
      simp [Route.handle, postUserAdd, postUserTokens, getUserTokens, getUserTokensHistory,
        getListings, postListingsAdd, he]
  · intro e n hcode hlo hhi
    rw [catchBlock_of_status e n hcode hlo hhi, nullish_eq]
  · intro e hcode
    rw [catchBlock_of_no_code e hcode, nullish_eq]
  · intro r hr
    cases route <;> simp only [Route.tryBlock] at hr
    all_goals
      simp only [Route.handle, postUserAdd, postUserTokens, getUserTokens,
        getUserTokensHistory, getListings, postListingsAdd, hr, true_and]
    all_goals
      simp only [postUserAddTry, postUserTokensTry, getUserTokensTry, getUserTokensHistoryTry,
        getListingsTry, postListingsAddTry, bind, Outcome.bind, pure, liftM, monadLift,
        MonadLift.monadLift, Outcome.ofExcept] at hr
    all_goals (repeat' split at hr)
    all_goals cases hr
    all_goals exact ⟨_, rfl⟩
  · rintro fault rfl
    cases route
    · by_cases h1 : isNonEmptyString (request.body "ticketSwapUserId") = true <;>
        by_cases h2 : isNonEmptyString (request.body "firstName") = true <;>
        by_cases h3 : isNonEmptyString (request.body "lastName") = true <;>
        simp [Route.tryBlock, postUserAddTry, validate_eq, h1, h2, h3, Database.addUser, bind,
          Outcome.bind, liftM, monadLift, MonadLift.monadLift, Outcome.ofExcept]
    · by_cases h1 : isNonEmptyString (request.params "ticketSwapUserId") = true <;>
        by_cases h2 : isNonEmptyString (request.body "reason") = true <;>
        by_cases h3 : isNonEmptyString (request.body "delta") = true <;>
        by_cases h4 : parseInt (request.body "delta").asString = none <;>
        simp [Route.tryBlock, postUserTokensTry, validate_eq, h1, h2, h3, h4,
          Database.addUserTokenDelta, bind, Outcome.bind, liftM, monadLift,
          MonadLift.monadLift, Outcome.ofExcept]
    · by_cases h1 : isNonEmptyString (request.params "ticketSwapUserId") = true <;>
        simp [Route.tryBlock, getUserTokensTry, validate_eq, h1, Database.getUserTokenAmount,
          bind, Outcome.bind, liftM, monadLift, MonadLift.monadLift, Outcome.ofExcept]
    · by_cases h1 : isNonEmptyString (request.params "ticketSwapUserId") = true <;>
        simp [Route.tryBlock, getUserTokensHistoryTry, validate_eq, h1,
          Database.getUserTokenHistory, bind, Outcome.bind, liftM, monadLift,
          MonadLift.monadLift, Outcome.ofExcept]
    · simp [Route.tryBlock, getListingsTry, Database.getPromotedListings, bind, Outcome.bind,
        liftM, monadLift, MonadLift.monadLift, Outcome.ofExcept]
    · by_cases h1 : isNonEmptyString (request.body "listingId") = true <;>
        by_cases h2 : isNonEmptyString (request.body "listingHash") = true <;>
        by_cases h3 : isNonEmptyString (request.body "eventId") = true <;>
        by_cases h4 : isNonEmptyString (request.body "eventTypeId") = true <;>
        simp [Route.tryBlock, postListingsAddTry, validate_eq, h1, h2, h3, h4,
          Database.addPromotedListing, bind, Outcome.bind, liftM, monadLift,
          MonadLift.monadLift, Outcome.ofExcept]

/-- C7 amended, at concrete inputs: the validation error of an empty
`firstName` is handled by the catch block and answered with its code 400; a
thrown object without a code is answered 500 with its message; a request that
throws nothing is answered 200. -/
theorem handle_reply_witness :
    Route.postUserAdd.handle Database.empty none 0 requestEmptyFirstName =
      (Database.empty,
        catchBlock { code := .num 400, message := .str "Parameter firstName is not valid" }) ∧
    catchBlock { code := .num 400, message := .str "Parameter firstName is not valid" } =
      .sent 400 (.error (.num 400) (.str "Parameter firstName is not valid")) ∧
    catchBlock plainError =
      .sent 500 (.error (.num 500) (.str "Cannot read properties of undefined")) ∧
    (Route.getUserTokens.handle Database.empty none 0 requestUser1).2 =
      .sent 200 (.amount (.num 0)) :=
  ⟨(handle_reply .postUserAdd Database.empty none 0 requestEmptyFirstName).1
      { code := .num 400, message := .str "Parameter firstName is not valid" } rfl,
   (handle_reply .postUserAdd Database.empty none 0 requestEmptyFirstName).2.1
      { code := .num 400, message := .str "Parameter firstName is not valid" } 400 rfl
      (by decide) (by decide),
   (handle_reply .postUserAdd Database.empty none 0 requestEmptyFirstName).2.2.1
      plainError (Or.inl rfl),
   by
    have h := (handle_reply .getUserTokens Database.empty none 0 requestUser1).2.2.2.1
      (Database.empty, .sent 200 (.amount (.num 0))) rfl
    rw [h.1]⟩

/-! ## Validation precedes the data access (C10) -/

/-- C10: for every handler (so for the three write handlers), when some required
field is not a non-empty string, the handler replies with HTTP status 400 and
the message `Parameter <name> is not valid` for the first such field in the
order of its `validate` calls, and the store is the one it started from. For
`POST /user/:ticketSwapUserId/tokens`, when `delta` is a string on which
`parseInt` gives `NaN`, the store is the one it started from as well and the
reply is not 200; when moreover the three fields are non-empty strings, the
error thrown is `new ApiError('Invalid delta amount')`. -/
theorem handle_invalid_request (route : Route) (db : Database) (err : Option SqliteError)
    (nowMs : Int) (request : Request) :
    (∀ f, route.requiredFields.find? (fun f => !isNonEmptyString (f.value request)) = some f →
      route.handle db err nowMs request =
        (db, .sent 400 (.error (.num 400)
               (.str ("Parameter " ++ f.name ++ " is not valid"))))) ∧
    (∀ delta, request.body "delta" = .str delta → parseInt delta = none →
      (Route.postUserTokens.handle db err nowMs request).1 = db ∧
      (Route.postUserTokens.handle db err nowMs request).2.httpStatus ≠ some 200) ∧
    (∀ delta, request.body "delta" = .str delta → parseInt delta = none →
      (∀ f ∈ Route.postUserTokens.requiredFields, isNonEmptyString (f.value request) = true) →
      Route.postUserTokens.tryBlock db err nowMs request =
        .error (ApiError.new (.str "Invalid delta amount") .undefined)) := by
  refine ⟨?_, ?_, ?_⟩
  · intro f hf
    cases route <;> simp only [Route.requiredFields, List.find?] at hf
    all_goals (repeat' split at hf)
    all_goals cases hf
    all_goals simp only [Bool.not_eq_true', Bool.not_eq_false', Field.value] at *
    all_goals
      simp [Route.handle, postUserAdd, postUserAddTry, postUserTokens, postUserTokensTry,
        getUserTokens, getUserTokensTry, getUserTokensHistory, getUserTokensHistoryTry,
        postListingsAdd, postListingsAddTry, validate_eq, *, bind, Outcome.bind, liftM,
        monadLift, MonadLift.monadLift, Outcome.ofExcept, catchBlock, respond, JsVal.nullish]
  · intro delta hdelta hparse
    by_cases hid : isNonEmptyString (request.params "ticketSwapUserId") = true <;>
      by_cases hreason : isNonEmptyString (request.body "reason") = true <;>
      by_cases hd : isNonEmptyString (.str delta) = true <;>
      simp [Route.handle, postUserTokens, postUserTokensTry, validate_eq, hid, hreason, hd,
        hdelta, hparse, JsVal.asString, bind, Outcome.bind, liftM, monadLift,
        MonadLift.monadLift, Outcome.ofExcept, catchBlock, respond, JsVal.nullish,
        ApiError.new, Reply.httpStatus]
  · intro delta hdelta hparse hall
    have hid := hall ⟨.params, "ticketSwapUserId"⟩ (by simp [Route.requiredFields])
    have hreason := hall ⟨.body, "reason"⟩ (by simp [Route.requiredFields])
    have hd := hall ⟨.body, "delta"⟩ (by simp [Route.requiredFields])
    simp only [Field.value] at hid hreason hd
    have hlen : 0 < delta.length := by
      rw [hdelta] at hd
      simpa [isNonEmptyString] using hd
    exact postUserTokensTry_of_parseInt_none db err nowMs request delta hid hreason hdelta hlen
      hparse

/-- C10, at concrete inputs: with an empty `reason` and `delta = "abc"` the
reply names `reason`, the first invalid field; with an empty `firstName` it
names `firstName`; with `delta = "abc"` and valid fields nothing is inserted. -/
theorem handle_invalid_request_witness :
    Route.postUserTokens.handle Database.empty none 0 requestEmptyReason =
      (Database.empty,
        .sent 400 (.error (.num 400) (.str "Parameter reason is not valid"))) ∧
    Route.postUserAdd.handle Database.empty none 0 requestEmptyFirstName =
      (Database.empty,
        .sent 400 (.error (.num 400) (.str "Parameter firstName is not valid"))) ∧
    (Route.postUserTokens.handle Database.empty none 0 requestDeltaAbc).1 = Database.empty :=
  ⟨(handle_invalid_request .postUserTokens Database.empty none 0 requestEmptyReason).1
      ⟨.body, "reason"⟩ (by decide),
   (handle_invalid_request .postUserAdd Database.empty none 0 requestEmptyFirstName).1
      ⟨.body, "firstName"⟩ (by decide),
   ((handle_invalid_request .postUserTokens Database.empty none 0 requestDeltaAbc).2.1
      "abc" (by decide) (by decide)).1⟩

/-! ## The token ledger (C1, C6) -/

theorem toDouble_of_safe (n : Int) (h : safeInteger n = true) : toDouble n = n := by
  simp only [safeInteger, Bool.and_eq_true, decide_eq_true_eq] at h
  have ha : n.natAbs ≤ 2 ^ 53 := by omega
  unfold toDouble
  exact if_pos ha

theorem summand_integer (d : Int) (h : inInt64 d = true) : summand (.integer d) = .int d := by
  simp [summand, integerAffinity, h]

/-- `SUM` over 64-bit integers whose running sums fit in 64 bits stays an
integer sum. -/
theorem foldl_sumStep_integers (ds : List Int) (s : Int) (safe : Bool)
    (hd : ds.all inInt64 = true) (hs : (runningSums ds s).all inInt64 = true) :
    ∃ safe', (ds.map SqlVal.integer).foldl sumStep (.exact s safe) =
      .exact (s + ds.sum) safe' := by
  induction ds generalizing s safe with
  | nil => exact ⟨safe, by simp⟩
  | cons d t ih =>
    simp only [List.all_cons, Bool.and_eq_true] at hd
    simp only [runningSums, List.all_cons, Bool.and_eq_true] at hs
    obtain ⟨safe', h⟩ := ih (s + d) (safe && safeInteger d && safeInteger (s + d)) hd.2 hs.2
    refine ⟨safe', ?_⟩
    simp only [List.map_cons, List.foldl_cons, sumStep, summand_integer d hd.1, hs.1, if_true,
      List.sum_cons]
    rw [h, Int.add_assoc]

/-- `SUM` over integer deltas whose sum is an integer sum in the engine: `NULL`
for no row, the integer sum otherwise. -/
theorem sqlSum_integers (ds : List Int) (h : sumFitsInt64 ds = true) :
    sqlSum (ds.map SqlVal.integer) = if ds = [] then .null else .integer ds.sum := by
  simp only [sumFitsInt64, Bool.and_eq_true] at h
  have hd : ds.all inInt64 = true := by
    rw [List.all_eq_true]
    intro d hmem
    have hb := (List.all_eq_true.mp h.1) d hmem
    simp only [Bool.and_eq_true, decide_eq_true_eq] at hb
    simp only [inInt64, int64Min, int64Max, Bool.and_eq_true, decide_eq_true_eq]
    omega
  obtain ⟨safe', hfold⟩ := foldl_sumStep_integers ds 0 true hd h.2
  cases ds with
  | nil => rfl
  | cons d t =>
    simp only [sqlSum, List.map_cons, List.isEmpty_cons, Bool.false_eq_true, if_false]
    rw [← List.map_cons, hfold]
    simp

/-- A sequence of `addUserTokenDelta` calls succeeds; it leaves the other two
tables alone and appends, for each user id, one history entry per call for that
id, in call order. -/
theorem addUserTokenDeltas_rows (calls : List TokenDeltaCall) (db : Database) :
    ∃ db', addUserTokenDeltas db calls = .ok db' ∧
      db'.user = db.user ∧ db'.promoted_listing = db.promoted_listing ∧
      db'.token_history.map (fun r => r.timestamp) =
        db.token_history.map (fun r => r.timestamp) ++ calls.map (fun c => c.nowMs / 1000) ∧
      ∀ id, ((db'.token_history.filter (fun r => r.userId == id)).map
          (fun r => ({ delta := r.delta, timestamp := r.timestamp, reason := r.reason } :
            HistoryEntry)) =
        (db.token_history.filter (fun r => r.userId == id)).map
          (fun r => ({ delta := r.delta, timestamp := r.timestamp, reason := r.reason } :
            HistoryEntry)) ++
        (calls.filter (fun c => c.id = id)).map
          (fun c => ({ delta := .integer c.delta, timestamp := c.nowMs / 1000,
                       reason := c.reason } : HistoryEntry))) := by
  induction calls generalizing db with
  | nil => exact ⟨db, rfl, rfl, rfl, by simp, by simp⟩
  | cons c cs ih =>
    simp only [addUserTokenDeltas, Database.addUserTokenDelta, integerAffinity]
    obtain ⟨db', h1, h2, h3, h4, h5⟩ := ih
      { db with token_history := db.token_history ++
          [{ id := db.token_history.length + 1, userId := c.id, delta := .integer c.delta,
             timestamp := c.nowMs / 1000, reason := c.reason }] }
    refine ⟨db', h1, h2, h3, ?_, ?_⟩
    · rw [h4]
      simp
    · intro id
      rw [h5 id]
      by_cases hc : c.id = id <;> simp [List.filter_append, List.filter_cons, hc]

/-- C1, the claim as stated fails at large deltas. After `2 ^ 53` and 1 for
user `u1` the amount is `9007199254740992`, the double nearest to their sum
`9007199254740993`. After `2 ^ 62` twice the statement fails with
`integer overflow` and `getUserTokenAmount` rejects. -/
theorem getUserTokenAmount_counterexample :
    (∃ db, addUserTokenDeltas Database.empty roundedCalls = .ok db ∧
      db.getUserTokenAmount none "u1" = .ok (.num 9007199254740992) ∧
      (deltasFor roundedCalls "u1").sum = 9007199254740993) ∧
    (∃ db, addUserTokenDeltas Database.empty overflowCalls = .ok db ∧
      db.getUserTokenAmount none "u1" = .error integerOverflow.toJsError) :=
  ⟨⟨_, rfl, by decide, by decide⟩, ⟨_, rfl, by decide⟩⟩

/-- C1, amended: after any sequence of `addUserTokenDelta` calls with integer
deltas on the empty store (calls for several user ids in any interleaving, the
empty sequence included), for every user id whose deltas have an exact sum
(each delta strictly between `-2 ^ 63` and `2 ^ 63`, each running sum within 64
bits, the total of magnitude at most `2 ^ 53`), `getUserTokenAmount(id)`
resolves to the sum of the deltas of the calls made for that id; it resolves to
0 when no call was made for that id. Without the bound on the total it
resolves to the double nearest to the sum. -/
theorem getUserTokenAmount_spec (calls : List TokenDeltaCall) :
    ∃ db, addUserTokenDeltas Database.empty calls = .ok db ∧
      ∀ id : String,
        (sumIsExact (deltasFor calls id) = true →
          db.getUserTokenAmount none id = .ok (.num (deltasFor calls id).sum)) ∧
        ((∀ c ∈ calls, c.id ≠ id) → db.getUserTokenAmount none id = .ok (.num 0)) ∧
        (sumFitsInt64 (deltasFor calls id) = true →
          db.getUserTokenAmount none id = .ok (.num (toDouble (deltasFor calls id).sum))) := by
  obtain ⟨db, h1, _, _, _, h5⟩ := addUserTokenDeltas_rows calls Database.empty
  refine ⟨db, h1, ?_⟩
  intro id
  have hdelta : (db.token_history.filter (fun r => r.userId == id)).map (fun r => r.delta) =
      (deltasFor calls id).map SqlVal.integer := by
    have h := congrArg (List.map (fun e : HistoryEntry => e.delta)) (h5 id)
    simpa [Database.empty, List.map_map, Function.comp_def, deltasFor] using h
  have hfits : sumFitsInt64 (deltasFor calls id) = true →
      db.getUserTokenAmount none id = .ok (.num (toDouble (deltasFor calls id).sum)) := by
    intro hfit
    simp only [Database.getUserTokenAmount, hdelta, sqlSum_integers _ hfit]
    by_cases hnil : deltasFor calls id = []
    · simp [hnil, JsVal.nullish, toDouble]
    · simp [hnil, JsVal.nullish]
  have hsum : sumIsExact (deltasFor calls id) = true →
      db.getUserTokenAmount none id = .ok (.num (deltasFor calls id).sum) := by
    intro hexact
    simp only [sumIsExact, Bool.and_eq_true] at hexact
    rw [hfits hexact.1, toDouble_of_safe _ hexact.2]
  refine ⟨hsum, ?_, hfits⟩
  intro hnone
  have hfilter : deltasFor calls id = [] := by
    simp only [deltasFor, List.map_eq_nil_iff]
    rw [List.filter_eq_nil_iff]
    intro c hc
    simpa using hnone c hc
  have h0 := hsum (by rw [hfilter]; rfl)
  rw [h0, hfilter]
  rfl

/-- C1 amended, at a concrete input: adding 10 and then -3 for user `u1`, with
a call for user `u2` in between, gives amount 7 for `u1`, 100 for `u2` and 0
for a user without a call. -/
theorem getUserTokenAmount_spec_witness :
    sumIsExact (deltasFor tokenCalls "u1") = true ∧
    ∃ db, addUserTokenDeltas Database.empty tokenCalls = .ok db ∧
      db.getUserTokenAmount none "u1" = .ok (.num 7) ∧
      db.getUserTokenAmount none "u2" = .ok (.num 100) ∧
      db.getUserTokenAmount none "u3" = .ok (.num 0) := by
  obtain ⟨db, h1, h2⟩ := getUserTokenAmount_spec tokenCalls
  exact ⟨by decide, db, h1, (h2 "u1").1 (by decide), (h2 "u2").1 (by decide),
    (h2 "u3").2.1 (by decide)⟩

/-- The scenario of the spec through the handlers: after `POST /user/add` for
`u1` and the deltas `"10"` and `"-3"` posted as strings, the column holds the
integers 10 and -3 and `GET /user/u1/tokens` answers 200 with amount 7. -/
theorem scenario_amount :
    scenarioStore.token_history.map (fun r => r.delta) = [.integer 10, .integer (-3)] ∧
    getUserTokens scenarioStore none requestUser1 =
      (scenarioStore, .sent 200 (.amount (.num 7))) := by
  refine ⟨by decide, by decide⟩

/-- A row whose text is not a number enters the sum by the integer at its
start: after `"10abc"` is posted for `u1`, the amount is 10. -/
theorem amount_after_text_delta :
    getUserTokens (postUserTokens Database.empty none 1700000000999 requestDelta10abc).1 none
        requestUser1 =
      ((postUserTokens Database.empty none 1700000000999 requestDelta10abc).1,
        .sent 200 (.amount (.num 10))) := by
  decide

/-- C6: after any sequence of `addUserTokenDelta` calls with integer deltas on
the empty store, `getUserTokenHistory(id)` resolves, for every user id, to the
entries of the calls made for that id and of no other, in call order, each
with the delta and the reason of its call and with timestamp `nowMs / 1000`,
which is the floor of the clock reading divided by 1000; the result is empty
when no call was made for that id. When the clock never goes backwards from one
call to the next, the timestamps of the result, and of the whole table, are
non-decreasing. -/
theorem getUserTokenHistory_spec (calls : List TokenDeltaCall) :
    ∃ db, addUserTokenDeltas Database.empty calls = .ok db ∧
      (∀ id : String,
        db.getUserTokenHistory none id =
          .ok ((calls.filter (fun c => c.id = id)).map
            (fun c => { delta := .integer c.delta, timestamp := c.nowMs / 1000,
                        reason := c.reason })) ∧
        ((∀ c ∈ calls, c.id ≠ id) → db.getUserTokenHistory none id = .ok []) ∧
        (calls.Chain' (fun a b => a.nowMs ≤ b.nowMs) →
          ∀ h, db.getUserTokenHistory none id = .ok h →
            h.Pairwise (fun a b => a.timestamp ≤ b.timestamp))) ∧
      (∀ c ∈ calls,
        1000 * (c.nowMs / 1000) ≤ c.nowMs ∧ c.nowMs < 1000 * (c.nowMs / 1000) + 1000) ∧
      (calls.Chain' (fun a b => a.nowMs ≤ b.nowMs) →
        (db.token_history.map (fun r => r.timestamp)).Pairwise (fun a b => a ≤ b)) := by
  obtain ⟨db, h1, _, _, h4, h5⟩ := addUserTokenDeltas_rows calls Database.empty
  have hpair : calls.Chain' (fun a b => a.nowMs ≤ b.nowMs) →
      calls.Pairwise (fun a b => a.nowMs / 1000 ≤ b.nowMs / 1000) := by
    intro hchain
    haveI : IsTrans TokenDeltaCall (fun a b => a.nowMs ≤ b.nowMs) :=
      ⟨fun a b c hab hbc => le_trans hab hbc⟩
    have hp := List.chain'_iff_pairwise.mp hchain
    exact hp.imp (fun {a b} hab => Int.ediv_le_ediv (by decide) hab)
  have hhist : ∀ id : String, db.getUserTokenHistory none id =
      .ok ((calls.filter (fun c => c.id = id)).map
        (fun c => { delta := .integer c.delta, timestamp := c.nowMs / 1000,
                    reason := c.reason })) := by
    intro id
    have h := h5 id
    simp only [Database.empty, List.filter_nil, List.map_nil, List.nil_append] at h
    simp only [Database.getUserTokenHistory, h]
  refine ⟨db, h1, ?_, ?_, ?_⟩
  · intro id
    refine ⟨hhist id, ?_, ?_⟩
    · intro hnone
      have hfilter : calls.filter (fun c => c.id = id) = [] := by
        rw [List.filter_eq_nil_iff]
        intro c hc
        simpa using hnone c hc
      rw [hhist id, hfilter]
      rfl
    · intro hchain h hh
      rw [hhist id] at hh
      cases hh
      exact ((hpair hchain).filter _).map _ (fun a b hab => hab)
  · intro c _
    constructor <;> omega
  · intro hchain
    rw [h4]
    simpa [Database.empty] using
      (hpair hchain).map (fun c : TokenDeltaCall => c.nowMs / 1000) (fun a b hab => hab)

/-- C6, at a concrete input: the history of `u1` after the three calls holds
the entries of its two calls, in call order, with timestamps in seconds. -/
theorem getUserTokenHistory_spec_witness :
    ∃ db, addUserTokenDeltas Database.empty tokenCalls = .ok db ∧
      db.getUserTokenHistory none "u1" =
        .ok [{ delta := .integer 10, timestamp := 1700000000, reason := "bonus" },
             { delta := .integer (-3), timestamp := 1700000002, reason := "fee" }] ∧
      db.getUserTokenHistory none "u3" = .ok [] ∧
      (db.token_history.map (fun r => r.timestamp)).Pairwise (fun a b => a ≤ b) := by
  obtain ⟨db, h1, h2, _, h4⟩ := getUserTokenHistory_spec tokenCalls
  exact ⟨db, h1, (h2 "u1").1, (h2 "u3").2.1 (by decide), h4 (by simp [tokenCalls])⟩

/-! ## Promoted listings (C8, C9) -/

/-- A sequence of `addPromotedListing` calls succeeds and appends one row per
call, in call order, to table `promoted_listing` and to nothing else. -/
theorem addPromotedListings_rows (calls : List PromotedListingRow) (db : Database) :
    ∃ db', addPromotedListings db calls = .ok db' ∧
      db'.user = db.user ∧ db'.token_history = db.token_history ∧
      db'.promoted_listing = db.promoted_listing ++ calls := by
  induction calls generalizing db with
  | nil => exact ⟨db, rfl, rfl, rfl, by simp⟩
  | cons c cs ih =>
    simp only [addPromotedListings, Database.addPromotedListing]
    obtain ⟨db', h1, h2, h3, h4⟩ := ih
      { db with promoted_listing := db.promoted_listing ++ [c] }
    exact ⟨db', h1, h2, h3, by rw [h4]; simp⟩

/-- C8: after any sequence of `addPromotedListing` calls on the empty store,
`getPromotedListings` resolves to one record per call, in call order, each with
the four values of its call. One more call, for any listing, whether or not it
repeats an earlier one, appends one more record, so that the number of records
equal to it grows by one. -/
theorem getPromotedListings_spec (calls : List PromotedListingRow) :
    ∃ db, addPromotedListings Database.empty calls = .ok db ∧
      db.getPromotedListings none = .ok calls ∧
      ∀ row : PromotedListingRow,
        ∃ db', db.addPromotedListing none row.listingId row.listingHash row.eventId
            row.eventTypeId = .ok db' ∧
          db'.getPromotedListings none = .ok (calls ++ [row]) ∧
          (calls ++ [row]).count row = calls.count row + 1 := by
  obtain ⟨db, h1, _, _, h4⟩ := addPromotedListings_rows calls Database.empty
  have hrows : db.promoted_listing = calls := by simpa [Database.empty] using h4
  refine ⟨db, h1, ?_, ?_⟩
  · simp only [Database.getPromotedListings, hrows]
  · intro row
    refine ⟨_, rfl, ?_, ?_⟩
    · simp only [Database.getPromotedListings, hrows]
    · simp

/-- C8, at a concrete input: two calls with distinct listing ids are both
returned, each with its four fields. -/
theorem getPromotedListings_spec_witness :
    ∃ db, addPromotedListings Database.empty listingCalls = .ok db ∧
      db.getPromotedListings none =
        .ok [{ listingId := "l1", listingHash := "h1", eventId := "e1", eventTypeId := "t1" },
             { listingId := "l2", listingHash := "h2", eventId := "e1",
               eventTypeId := "t1" }] := by
  obtain ⟨db, h1, h2, _⟩ := getPromotedListings_spec listingCalls
  exact ⟨db, h1, h2⟩

/-- The handler of `GET /listings` answers 200 with the rows of the table when
the driver reports no fault. -/
theorem getListings_reply (db : Database) :
    getListings db none = (db, .sent 200 (.listings db.promoted_listing)) := by
  simp [getListings, getListingsTry, Database.getPromotedListings, respond, bind, Outcome.bind,
    liftM, monadLift, MonadLift.monadLift, Outcome.ofExcept]

/-- The handler of `GET /user/:ticketSwapUserId/tokens/history` answers 200 with
the history of the user when the id is a non-empty string and the driver
reports no fault. -/
theorem getUserTokensHistory_reply (db : Database) (request : Request) (id : String)
    (hid : request.params "ticketSwapUserId" = .str id) (hlen : 0 < id.length) :
    ∃ history, db.getUserTokenHistory none id = .ok history ∧
      getUserTokensHistory db none request = (db, .sent 200 (.history history)) := by
  refine ⟨_, rfl, ?_⟩
  simp [getUserTokensHistory, getUserTokensHistoryTry, hid, validate, hlen,
    Database.getUserTokenHistory, respond, bind, Outcome.bind, liftM, monadLift,
    MonadLift.monadLift, Outcome.ofExcept]

/-- The call `response.status(code).send(body)` at the ends of the range of
HTTP statuses. -/
theorem respond_bounds (body : Body) :
    respond (.num 100) body = .sent 100 body ∧ respond (.num 999) body = .sent 999 body ∧
    respond (.num 99) body = .invalidStatus (.num 99) body ∧
    respond (.num 1000) body = .invalidStatus (.num 1000) body :=
  ⟨rfl, rfl, rfl, rfl⟩

/-- C9, the code at a listing posted twice: the second `POST /listings/add` of
the same listing is answered 200 and stores a second, identical row, so that
`getPromotedListings` returns two records where one post leaves one. -/
theorem postListingsAdd_twice_duplicates :
    (postListingsAdd Database.empty none requestListing).1.getPromotedListings none =
      .ok [{ listingId := "l1", listingHash := "h1", eventId := "e1", eventTypeId := "t1" }] ∧
    (postListingsAdd (postListingsAdd Database.empty none requestListing).1 none
        requestListing).1.getPromotedListings none =
      .ok [{ listingId := "l1", listingHash := "h1", eventId := "e1", eventTypeId := "t1" },
           { listingId := "l1", listingHash := "h1", eventId := "e1", eventTypeId := "t1" }] ∧
    (postListingsAdd (postListingsAdd Database.empty none requestListing).1 none
        requestListing).2 = .sent 200 (.apiSuccess "Done") ∧
    (postListingsAdd (postListingsAdd Database.empty none requestListing).1 none
        requestListing).1 ≠ (postListingsAdd Database.empty none requestListing).1 := by
  refine ⟨rfl, rfl, by decide, by decide⟩

/-! ## Users (C2) -/

theorem filter_id_eq_nil (l : List UserRow) (id : String) (h : ∀ u ∈ l, u.id ≠ id) :
    l.filter (fun u => u.id = id) = [] := by
  rw [List.filter_eq_nil_iff]
  intro u hu
  simpa using h u hu

theorem filter_id_length_of_unique (l : List UserRow) (id : String)
    (hn : (l.map (fun u => u.id)).Nodup) (hex : ∃ u ∈ l, u.id = id) :
    (l.filter (fun u => u.id = id)).length = 1 := by
  induction l with
  | nil =>
    obtain ⟨u, hu, _⟩ := hex
    cases hu
  | cons v t ih =>
    rw [List.map_cons, List.nodup_cons] at hn
    by_cases hv : v.id = id
    · have ht : ∀ u ∈ t, u.id ≠ id := by
        intro u hu hid
        apply hn.1
        rw [hv, ← hid]
        exact List.mem_map_of_mem (fun u => u.id) hu
      simp [List.filter_cons, hv, filter_id_eq_nil t id ht]
    · have hex' : ∃ u ∈ t, u.id = id := by
        obtain ⟨u, hu, hid⟩ := hex
        rcases List.mem_cons.mp hu with rfl | hu'
        · exact absurd hid hv
        · exact ⟨u, hu', hid⟩
      simp [List.filter_cons, hv, ih hn.2 hex']

theorem any_id_iff (l : List UserRow) (id : String) :
    l.any (fun u => u.id == id) = true ↔ ∃ u ∈ l, u.id = id := by
  simp [List.any_eq_true]

/-- The primary key of table `user` stays unique under `INSERT OR IGNORE`. -/
theorem insertOrIgnoreUser_keysUnique (db : Database) (row : UserRow)
    (h : db.userKeysUnique) : (db.insertOrIgnoreUser row).userKeysUnique := by
  unfold Database.insertOrIgnoreUser
  by_cases hex : db.user.any (fun u => u.id == row.id) = true
  · simpa [hex] using h
  · have hnot : ∀ u ∈ db.user, u.id ≠ row.id := by
      intro u hu hid
      exact hex ((any_id_iff db.user row.id).2 ⟨u, hu, hid⟩)
    simp only [hex, Bool.false_eq_true, if_false, Database.userKeysUnique, List.map_append,
      List.map_cons, List.map_nil]
    rw [List.nodup_append]
    refine ⟨h, List.nodup_singleton _, ?_⟩
    intro a ha hb
    rw [List.mem_singleton] at hb
    obtain ⟨u, hu, rfl⟩ := List.mem_map.mp ha
    exact hnot u hu hb

theorem empty_keysUnique : Database.empty.userKeysUnique := by
  simp [Database.userKeysUnique, Database.empty]

theorem addUser_keysUnique {db db' : Database} {err : Option SqliteError}
    {id firstName lastName : String} (h : db.userKeysUnique)
    (hr : db.addUser err id firstName lastName = .ok db') : db'.userKeysUnique := by
  cases err with
  | some e => cases hr
  | none =>
    cases hr
    exact insertOrIgnoreUser_keysUnique db _ h

theorem addUserTokenDelta_keysUnique {db db' : Database} {err : Option SqliteError} {nowMs : Int}
    {id : String} {delta : SqlVal} {reason : String} (h : db.userKeysUnique)
    (hr : db.addUserTokenDelta err nowMs id delta reason = .ok db') : db'.userKeysUnique := by
  cases err with
  | some e => cases hr
  | none =>
    cases hr
    exact h

theorem addPromotedListing_keysUnique {db db' : Database} {err : Option SqliteError}
    {listingId listingHash eventId eventTypeId : String} (h : db.userKeysUnique)
    (hr : db.addPromotedListing err listingId listingHash eventId eventTypeId = .ok db') :
    db'.userKeysUnique := by
  cases err with
  | some e => cases hr
  | none =>
    cases hr
    exact h

theorem ofExcept_eq_ok {α : Type} {x : Except JsError α} {a : α}
    (h : Outcome.ofExcept x = .ok a) : x = .ok a := by
  cases x with
  | ok b =>
    cases h
    rfl
  | error e => cases h

/-- Every handler keeps the primary key of table `user` unique, so the
constraint holds in every store that the handlers reach from the empty one. -/
theorem handle_keysUnique (route : Route) (db : Database) (err : Option SqliteError)
    (nowMs : Int) (request : Request) (h : db.userKeysUnique) :
    (route.handle db err nowMs request).1.userKeysUnique := by
  cases route <;>
    simp only [Route.handle, postUserAdd, postUserTokens, getUserTokens, getUserTokensHistory,
      getListings, postListingsAdd]
  all_goals split
  all_goals first
    | exact h
    | skip
  all_goals rename_i r hr
  all_goals
    simp only [postUserAddTry, postUserTokensTry, getUserTokensTry,
      getUserTokensHistoryTry, getListingsTry, postListingsAddTry, bind, Outcome.bind, pure,
      liftM, monadLift, MonadLift.monadLift] at hr
  all_goals (repeat' split at hr)
  all_goals cases hr
  all_goals first
    | exact h
    | exact addUser_keysUnique h (ofExcept_eq_ok (by assumption))
    | exact addUserTokenDelta_keysUnique h (ofExcept_eq_ok (by assumption))
    | exact addPromotedListing_keysUnique h (ofExcept_eq_ok (by assumption))

/-- C2: on a store whose `user` table respects its primary key, a call
`addUser(id, firstName, lastName)` succeeds, and a second call with the same id
and any names succeeds as well and changes nothing: the store after it is the
store after the first call. After the calls exactly one row has that id; the
primary key is still respected; when the id was not stored before, that row
holds the names of the first call, and when it was stored before, the first call
changes nothing either. The other two tables are as before. -/
theorem addUser_twice (db : Database) (id firstName lastName firstName2 lastName2 : String)
    (hkey : db.userKeysUnique) :
    ∃ db1, db.addUser none id firstName lastName = .ok db1 ∧
      db1.addUser none id firstName2 lastName2 = .ok db1 ∧
      (db1.user.filter (fun u => u.id = id)).length = 1 ∧
      db1.userKeysUnique ∧
      ((∀ u ∈ db.user, u.id ≠ id) →
        db1.user.filter (fun u => u.id = id) =
          [{ id := id, firstName := firstName, lastName := lastName }]) ∧
      ((∃ u ∈ db.user, u.id = id) → db1 = db) ∧
      db1.token_history = db.token_history ∧ db1.promoted_listing = db.promoted_listing := by
  refine ⟨db.insertOrIgnoreUser { id := id, firstName := firstName, lastName := lastName },
    rfl, ?_, ?_, insertOrIgnoreUser_keysUnique db _ hkey, ?_, ?_, ?_, ?_⟩
  · by_cases hex : db.user.any (fun u => u.id == id) = true
    · simp [Database.addUser, Database.insertOrIgnoreUser, hex]
    · simp [Database.addUser, Database.insertOrIgnoreUser, hex]
  · by_cases hex : db.user.any (fun u => u.id == id) = true
    · simp only [Database.insertOrIgnoreUser, hex, if_true]
      exact filter_id_length_of_unique db.user id hkey ((any_id_iff db.user id).1 hex)
    · have hnot : ∀ u ∈ db.user, u.id ≠ id := by
        intro u hu hid
        exact hex ((any_id_iff db.user id).2 ⟨u, hu, hid⟩)
      simp [Database.insertOrIgnoreUser, hex, List.filter_append, filter_id_eq_nil db.user id hnot]
  · intro hnot
    have hex : ¬ db.user.any (fun u => u.id == id) = true := by
      intro h
      obtain ⟨u, hu, hid⟩ := (any_id_iff db.user id).1 h
      exact hnot u hu hid
    simp [Database.insertOrIgnoreUser, hex, List.filter_append, filter_id_eq_nil db.user id hnot]
  · intro hex
    have h := (any_id_iff db.user id).2 hex
    simp [Database.insertOrIgnoreUser, h]
  · unfold Database.insertOrIgnoreUser
    split <;> rfl
  · unfold Database.insertOrIgnoreUser
    split <;> rfl

/-- C2, at a concrete input: on a store that holds user `u0`, adding `u1` twice,
the second time with other names, keeps one row for `u1` with the first names. -/
theorem addUser_twice_witness :
    storeWithUser.userKeysUnique ∧
    ∃ db1, storeWithUser.addUser none "u1" "A" "B" = .ok db1 ∧
      db1.addUser none "u1" "C" "D" = .ok db1 ∧
      db1.user = [{ id := "u0", firstName := "Z", lastName := "Y" },
                  { id := "u1", firstName := "A", lastName := "B" }] := by
  have hkey : storeWithUser.userKeysUnique := by
    simp [Database.userKeysUnique, storeWithUser]
  obtain ⟨db1, h1, h2, _⟩ := addUser_twice storeWithUser "u1" "A" "B" "C" "D" hkey
  refine ⟨hkey, db1, h1, h2, ?_⟩
  cases h1
  rfl

end Garuda
